import Mathlib

/-!
Shallow embedding of the stock relay server (`src/server.js`) of the
Capx repository, together with theorems settling the specification
claims about it.

The server keeps:
* a persisted ledger of `Stock` rows (Prisma `Stock` table, unique ticker),
* `subscriptions : Map<string, Set<res>>` mapping a symbol to the set of
  Express response objects registered for it,
* `liveStockData : Map<string, number>` mapping a symbol to its latest price,
* an upstream WebSocket `socket` (re-assigned on reconnect) whose event
  handlers were attached only to the original socket object.

HTTP request fields arrive as JSON and may be absent, so they are modelled
as `Option` values; JavaScript falsiness of strings and numbers is modelled
explicitly (`strFalsy`, `intFalsy`, `ratFalsy`).  Express response objects
are modelled by a numeric identity (`resId`): every HTTP request carries a
fresh response object, hence a fresh identifier.  Prices are rationals
(JSON numbers), held quantities are integers (the `quantity` column is an
SQL `INTEGER`).
-/

/-- A row of the Prisma `Stock` table (`id`/timestamps omitted: no claim
mentions them). The `ticker` column has a unique index. -/
structure Stock where
  ticker : String
  name : String
  quantity : Int
  buyPrice : Rat
deriving DecidableEq

/-- A control frame sent on the upstream WebSocket
(`JSON.stringify({ type, symbol })`). -/
inductive UpMsg where
  | subscribe (symbol : String)
  | unsubscribe (symbol : String)
deriving DecidableEq

/-- A serialized update message delivered to a downstream subscriber
channel.  (The spec's downstream protocol; the source never sends one.) -/
inductive DownMsg where
  | update (symbol : String) (price : Rat)
deriving DecidableEq

/-- Error kinds of the JSON error responses of `server.js`. -/
inductive ErrKind where
  | missingSymbol
  | notFound
  | missingFields
  | invalidRequest
  | insufficientQuantity
  | uniqueViolation
deriving DecidableEq

/-- Success payloads of the JSON responses of `server.js`. -/
inductive OkBody where
  | subscribed (symbol : String)
  | unsubscribed (symbol : String)
  | created (s : Stock)
  | sold (s : Stock)
  | bought (s : Stock)
  | stockList (rows : List (Stock × Option Rat))
deriving DecidableEq

/-- An HTTP response: status code plus payload. -/
inductive Resp where
  | err (status : Nat) (kind : ErrKind)
  | ok (status : Nat) (body : OkBody)
deriving DecidableEq

/-- JavaScript falsiness of an optional string field (`!x`):
absent or the empty string. -/
def strFalsy : Option String → Bool
  | none => true
  | some s => s == ""

/-- JavaScript falsiness of an optional integer field (`!x`):
absent or zero. -/
def intFalsy : Option Int → Bool
  | none => true
  | some n => n == 0

/-- JavaScript falsiness of an optional numeric field (`!x`):
absent or zero. -/
def ratFalsy : Option Rat → Bool
  | none => true
  | some q => q == 0

/-- `Map.prototype.get`: value of the first (unique) entry with this key. -/
def mapFind {α : Type} (m : List (String × α)) (k : String) : Option α :=
  match m with
  | [] => none
  | (k', v) :: rest => if k' = k then some v else mapFind rest k

/-- `Map.prototype.set`: overwrite the entry in place, or append it. -/
def mapSet {α : Type} (m : List (String × α)) (k : String) (v : α) :
    List (String × α) :=
  match m with
  | [] => [(k, v)]
  | (k', v') :: rest =>
    if k' = k then (k, v) :: rest else (k', v') :: mapSet rest k v

/-- `Map.prototype.delete`: remove the entry with this key. -/
def mapDelete {α : Type} (m : List (String × α)) (k : String) :
    List (String × α) :=
  match m with
  | [] => []
  | (k', v') :: rest =>
    if k' = k then rest else (k', v') :: mapDelete rest k

/-- `Map.prototype.has`. -/
def mapHas {α : Type} (m : List (String × α)) (k : String) : Bool :=
  (mapFind m k).isSome

/-- `Set.prototype.add` on a set of response identities. -/
def setAdd (s : List Nat) (x : Nat) : List Nat :=
  if x ∈ s then s else s ++ [x]

/-- The whole in-memory state of the server process, plus the observable
traffic: `sent` records each upstream control frame together with the
generation of the socket object it was written to (generation 0 is the
socket created at module load, which is the only one with event handlers
attached); `clientSent` records every serialized message written to a
registered downstream subscriber channel (the source contains no such
write); `pendingReconnects` records the delays of scheduled
`setTimeout` reconnect callbacks not yet fired. -/
structure ServerState where
  ledger : List Stock
  subscriptions : List (String × List Nat)
  liveStockData : List (String × Rat)
  socketGen : Nat
  sent : List (Nat × UpMsg)
  clientSent : List (Nat × DownMsg)
  pendingReconnects : List Nat
deriving DecidableEq

/-- The hard-coded default symbol list of `server.js`. -/
def initialStocks : List String :=
  ["BINANCE:BTCUSDT", "BINANCE:ETHUSDT", "BINANCE:BNBUSDT",
   "BINANCE:ADAUSDT", "BINANCE:SOLUSDT"]

/-- The fixed reconnect delay of the `socket.on('close')` handler
(`setTimeout(..., 5000)`). -/
def reconnectDelayMs : Nat := 5000

/-- `socket.on('open')`: handlers are attached only to the generation-0
socket; that handler sends a subscribe frame for each symbol of the fixed
`initialStocks` list. -/
def onOpen (st : ServerState) : ServerState :=
  if st.socketGen = 0 then
    { st with
      sent := st.sent ++ initialStocks.map (fun t => (st.socketGen, UpMsg.subscribe t)) }
  else st

/-- A decoded upstream frame: `JSON.parse` result with the fields the
handler reads (`message.type`, `message.data` as a list of
`{s: symbol, p: price}` trades). -/
structure UpFrame where
  type : String
  data : Option (List (String × Rat))
deriving DecidableEq

/-- `socket.on('message')`: only the generation-0 socket has the handler.
`none` models a frame on which `JSON.parse` throws: the error is caught
and logged, nothing else happens.  A `trade` frame with a `data` field
sets `liveStockData[s] = p` for each trade in order; any other frame is
ignored. -/
def onMessage (st : ServerState) (frame : Option UpFrame) : ServerState :=
  if st.socketGen ≠ 0 then st
  else
    match frame with
    | none => st
    | some m =>
      if m.type == "trade" && m.data.isSome then
        { st with
          liveStockData :=
            (m.data.getD []).foldl (fun acc tr => mapSet acc tr.1 tr.2) st.liveStockData }
      else st

/-- Process a sequence of upstream frames in arrival order. -/
def processFrames (st : ServerState) (frames : List (Option UpFrame)) : ServerState :=
  frames.foldl onMessage st

/-- `socket.on('close')`: only the generation-0 socket has the handler; it
schedules a reconnect callback after the fixed 5000 ms delay. -/
def onClose (st : ServerState) : ServerState :=
  if st.socketGen = 0 then
    { st with pendingReconnects := st.pendingReconnects ++ [reconnectDelayMs] }
  else st

/-- The `setTimeout` reconnect callback fires: `socket = new WebSocket(...)`
re-binds the module variable to a fresh socket object (next generation).
No `.on(...)` call is ever made on this new object. -/
def reconnectTimerFires (st : ServerState) : ServerState :=
  match st.pendingReconnects with
  | [] => st
  | _ :: rest => { st with pendingReconnects := rest, socketGen := st.socketGen + 1 }

/-- `prisma.stock.findUnique({ where: { ticker } })`. -/
def findStock (l : List Stock) (t : String) : Option Stock :=
  match l with
  | [] => none
  | r :: rest => if r.ticker = t then some r else findStock rest t

/-- `prisma.stock.update({ where: { ticker } })`: replace the (unique)
row with this ticker. -/
def updateStock (l : List Stock) (t : String) (s : Stock) : List Stock :=
  match l with
  | [] => []
  | r :: rest => if r.ticker = t then s :: rest else r :: updateStock rest t s

/-- `liveData ? liveData : null` / `if (!livePrice)`: a cached price is
used only when truthy, i.e. present and non-zero. -/
def truthyPrice : Option Rat → Option Rat
  | none => none
  | some p => if p = 0 then none else some p

/-- One iteration of the seeding loop of `GET /stocks`: look up the live
price of the default symbol, skip if falsy, otherwise
`prisma.stock.create` a row `{ticker, name: ticker, quantity: 1,
buyPrice: livePrice}`; a unique-constraint violation on `ticker` is
caught and logged, leaving the ledger unchanged. -/
def seedOne (st : ServerState) (t : String) : ServerState :=
  match truthyPrice (mapFind st.liveStockData t) with
  | none => st
  | some p =>
    if st.ledger.any (fun r => r.ticker = t) then st
    else { st with ledger := st.ledger ++ [⟨t, t, 1, p⟩] }

/-- `GET /stocks`: when the ledger has fewer than 5 rows, run the seeding
loop over `initialStocks.slice(stocks.length, 5)` (= drop the first
`stocks.length` of the 5 default symbols), then refetch and answer with
every row paired with its truthy cached live price, or `null`. -/
def getStocks (st : ServerState) : List (Stock × Option Rat) × ServerState :=
  let st1 :=
    if st.ledger.length < 5 then
      (initialStocks.drop st.ledger.length).foldl seedOne st
    else st
  (st1.ledger.map (fun s => (s, truthyPrice (mapFind st1.liveStockData s.ticker))), st1)

/-- `POST /stocks/subscribe`: reject a falsy symbol with 400; 404 when the
ticker is not in the ledger; otherwise, if the symbol has no entry in
`subscriptions`, create an empty set for it and send an upstream
subscribe frame on the current socket; finally add this request's
response object to the symbol's set and answer 200. -/
def subscribeStock (st : ServerState) (symbol : Option String) (resId : Nat) :
    Resp × ServerState :=
  if strFalsy symbol then (Resp.err 400 ErrKind.missingSymbol, st)
  else
    let sym := symbol.getD ""
    match findStock st.ledger sym with
    | none => (Resp.err 404 ErrKind.notFound, st)
    | some _ =>
      let st1 :=
        if mapHas st.subscriptions sym then st
        else
          { st with
            subscriptions := mapSet st.subscriptions sym [],
            sent := st.sent ++ [(st.socketGen, UpMsg.subscribe sym)] }
      let members := (mapFind st1.subscriptions sym).getD []
      (Resp.ok 200 (OkBody.subscribed sym),
       { st1 with subscriptions := mapSet st1.subscriptions sym (setAdd members resId) })

/-- `POST /stocks/unsubscribe`: reject a falsy symbol with 400; otherwise,
when the symbol has an entry, delete this request's own response object
from the set (`subscriptions.get(symbol)?.delete(res)`), and if the set
is then empty send an upstream unsubscribe frame and drop the entry;
always answer 200. -/
def unsubscribeStock (st : ServerState) (symbol : Option String) (resId : Nat) :
    Resp × ServerState :=
  if strFalsy symbol then (Resp.err 400 ErrKind.missingSymbol, st)
  else
    let sym := symbol.getD ""
    let st1 :=
      match mapFind st.subscriptions sym with
      | none => st
      | some members =>
        let members' := members.erase resId
        if members'.length = 0 then
          { st with
            sent := st.sent ++ [(st.socketGen, UpMsg.unsubscribe sym)],
            subscriptions := mapDelete st.subscriptions sym }
        else { st with subscriptions := mapSet st.subscriptions sym members' }
    (Resp.ok 200 (OkBody.unsubscribed sym), st1)

/-- `POST /stocks`: reject with 400 when any of the four fields is falsy;
`prisma.stock.create` of the new row; a unique-constraint violation on
`ticker` is caught and answered 500. -/
def addStock (st : ServerState) (ticker name : Option String)
    (quantity : Option Int) (buyPrice : Option Rat) : Resp × ServerState :=
  if strFalsy ticker || strFalsy name || intFalsy quantity || ratFalsy buyPrice then
    (Resp.err 400 ErrKind.missingFields, st)
  else
    let row : Stock := ⟨ticker.getD "", name.getD "", quantity.getD 0, buyPrice.getD 0⟩
    if st.ledger.any (fun r => r.ticker = row.ticker) then
      (Resp.err 500 ErrKind.uniqueViolation, st)
    else (Resp.ok 201 (OkBody.created row), { st with ledger := st.ledger ++ [row] })

/-- `DELETE /stocks/sell`: 400 when ticker or quantity is falsy or the
quantity is not positive; 404 when the ticker is not in the ledger; 400
when the held quantity is smaller than the requested one; otherwise
decrement the quantity, and when it reaches zero and the symbol has a
`subscriptions` entry, send an upstream unsubscribe frame and drop the
entry. -/
def sellStock (st : ServerState) (ticker : Option String) (qty : Option Int) :
    Resp × ServerState :=
  if strFalsy ticker || intFalsy qty || decide (qty.getD 0 ≤ 0) then
    (Resp.err 400 ErrKind.invalidRequest, st)
  else
    let t := ticker.getD ""
    let n := qty.getD 0
    match findStock st.ledger t with
    | none => (Resp.err 404 ErrKind.notFound, st)
    | some s =>
      if s.quantity < n then (Resp.err 400 ErrKind.insufficientQuantity, st)
      else
        let s' : Stock := { s with quantity := s.quantity - n }
        let st1 := { st with ledger := updateStock st.ledger t s' }
        let st2 :=
          if s'.quantity = 0 && mapHas st1.subscriptions t then
            { st1 with
              sent := st1.sent ++ [(st1.socketGen, UpMsg.unsubscribe t)],
              subscriptions := mapDelete st1.subscriptions t }
          else st1
        (Resp.ok 200 (OkBody.sold s'), st2)

/-- `POST /stocks/buy`: 400 when ticker or quantity is falsy or the
quantity is not positive; 404 when the ticker is not in the ledger;
otherwise increment the quantity.  Nothing else is touched. -/
def buyStock (st : ServerState) (ticker : Option String) (qty : Option Int) :
    Resp × ServerState :=
  if strFalsy ticker || intFalsy qty || decide (qty.getD 0 ≤ 0) then
    (Resp.err 400 ErrKind.invalidRequest, st)
  else
    let t := ticker.getD ""
    let n := qty.getD 0
    match findStock st.ledger t with
    | none => (Resp.err 404 ErrKind.notFound, st)
    | some s =>
      let s' : Stock := { s with quantity := s.quantity + n }
      (Resp.ok 200 (OkBody.bought s'), { st with ledger := updateStock st.ledger t s' })

/-- Specification-side description of the rows the seeding loop of
`GET /stocks` appends, stated over the UNCHANGED initial ledger and
cache: for each attempted symbol in order, a row `⟨t, t, 1, p⟩` when the
cached price `p` is present and non-zero and no row with that ticker
exists yet; nothing otherwise.  Compared with the loop itself in the C8
theorem. -/
def seedRowsSpec (ledger : List Stock) (live : List (String × Rat)) :
    List String → List Stock
  | [] => []
  | t :: rest =>
    match truthyPrice (mapFind live t) with
    | none => seedRowsSpec ledger live rest
    | some p =>
      if ledger.any (fun r => r.ticker = t) then seedRowsSpec ledger live rest
      else ⟨t, t, 1, p⟩ :: seedRowsSpec ledger live rest

/-- A server state at module load: given persisted ledger, empty maps,
the generation-0 socket, no traffic, no pending timers. -/
def freshState (ledger : List Stock) : ServerState :=
  ⟨ledger, [], [], 0, [], [], []⟩

/-- C1 scenario state: the ledger contains the one instrument "X". -/
def c1State : ServerState := freshState [⟨"X", "X", 1, 1⟩]

/-- C1 scenario: the same downstream client subscribes to "X" (its request
carries response object 1) and then unsubscribes (fresh response
object 2). -/
def c1AfterUnsubscribe : ServerState :=
  (unsubscribeStock (subscribeStock c1State (some "X") 1).2 (some "X") 2).2

/-- C2 scenario state: downstream channel 1 is registered for
"BINANCE:BTCUSDT". -/
def c2State : ServerState :=
  { freshState [] with subscriptions := [("BINANCE:BTCUSDT", [1])] }

/-- C2 scenario: a decoded trade tick for "BINANCE:BTCUSDT" at 65000
arrives on the generation-0 socket. -/
def c2AfterTick : ServerState :=
  onMessage c2State (some ⟨"trade", some [("BINANCE:BTCUSDT", (65000 : Rat))]⟩)

/-- C3 scenario state: the ledger contains "BINANCE:BTCUSDT". -/
def c3State : ServerState :=
  freshState [⟨"BINANCE:BTCUSDT", "BINANCE:BTCUSDT", 1, 1⟩]

/-- C3 scenario: connection opens, a client subscribes to
"BINANCE:BTCUSDT"; this is the state at the moment the connection
drops. -/
def c3AtDrop : ServerState :=
  (subscribeStock (onOpen c3State) (some "BINANCE:BTCUSDT") 1).2

/-- C3 scenario: the close handler runs, the scheduled reconnect timer
fires (a fresh socket object is bound), and the new connection opens. -/
def c3AfterReconnect : ServerState :=
  onOpen (reconnectTimerFires (onClose c3AtDrop))

/-- C5 witness state: instrument "ACME" with held quantity 3. -/
def c5State : ServerState := freshState [⟨"ACME", "Acme Corp", 3, 10⟩]

/-- C6 counterexample state: instrument "X" with held quantity 2; no
symbol is subscribed upstream. -/
def c6State : ServerState := freshState [⟨"X", "X", 2, 1⟩]

/-- C8 counterexample state: four non-default instruments in the ledger;
the cache holds price 1 for "BINANCE:BTCUSDT", price 0 for
"BINANCE:SOLUSDT" and price 0 for "AAPL". -/
def c8State : ServerState :=
  { freshState
      [⟨"AAPL", "Apple", 1, 1⟩, ⟨"MSFT", "Microsoft", 1, 1⟩,
       ⟨"GOOG", "Google", 1, 1⟩, ⟨"TSLA", "Tesla", 1, 1⟩] with
    liveStockData :=
      [("BINANCE:BTCUSDT", 1), ("BINANCE:SOLUSDT", 0), ("AAPL", 0)] }

/-- C8 witness state: empty ledger, cache with a truthy price for the
first default symbol only. -/
def c8WitnessState : ServerState :=
  { freshState [] with liveStockData := [("BINANCE:BTCUSDT", 7)] }

/-! ## Helper lemmas -/

theorem mapFind_mapSet_self {α : Type} (m : List (String × α)) (k : String) (v : α) :
    mapFind (mapSet m k v) k = some v := by
  induction m with
  | nil => simp [mapSet, mapFind]
  | cons hd rest ih =>
    obtain ⟨k', v'⟩ := hd
    by_cases hk : k' = k
    · simp [mapSet, hk, mapFind]
    · simp [mapSet, hk, mapFind, ih]

theorem onMessage_none (st : ServerState) : onMessage st none = st := by
  unfold onMessage
  split <;> rfl

theorem onMessage_socketGen (st : ServerState) (f : Option UpFrame) :
    (onMessage st f).socketGen = st.socketGen := by
  unfold onMessage
  split
  · rfl
  · split
    · rfl
    · split <;> rfl

theorem processFrames_socketGen (st : ServerState) (fs : List (Option UpFrame)) :
    (processFrames st fs).socketGen = st.socketGen := by
  induction fs generalizing st with
  | nil => rfl
  | cons f rest ih =>
    simp only [processFrames, List.foldl_cons] at *
    rw [ih, onMessage_socketGen]

theorem onMessage_trade_single (st : ServerState) (hg : st.socketGen = 0)
    (sym : String) (p : Rat) :
    onMessage st (some ⟨"trade", some [(sym, p)]⟩) =
      { st with liveStockData := mapSet st.liveStockData sym p } := by
  unfold onMessage
  rw [if_neg (by simp [hg])]
  simp

theorem findStock_ticker_eq (l : List Stock) (t : String) (s : Stock)
    (h : findStock l t = some s) : s.ticker = t := by
  induction l with
  | nil => simp [findStock] at h
  | cons r rest ih =>
    by_cases hr : r.ticker = t
    · unfold findStock at h
      rw [if_pos hr] at h
      injection h with h
      rw [← h]; exact hr
    · unfold findStock at h
      rw [if_neg hr] at h
      exact ih h

theorem findStock_updateStock (l : List Stock) (t : String) (s s' : Stock)
    (hfind : findStock l t = some s) (ht : s'.ticker = t) :
    findStock (updateStock l t s') t = some s' := by
  induction l with
  | nil => simp [findStock] at hfind
  | cons r rest ih =>
    by_cases hr : r.ticker = t
    · simp [updateStock, hr, findStock, ht]
    · unfold findStock at hfind
      rw [if_neg hr] at hfind
      simp [updateStock, hr, findStock]
      exact ih hfind

theorem seedOne_none (st : ServerState) (t : String)
    (h : truthyPrice (mapFind st.liveStockData t) = none) : seedOne st t = st := by
  unfold seedOne; rw [h]

theorem seedOne_dup (st : ServerState) (t : String) (p : Rat)
    (h : truthyPrice (mapFind st.liveStockData t) = some p)
    (hd : st.ledger.any (fun r => r.ticker = t) = true) : seedOne st t = st := by
  unfold seedOne; rw [h]; simp [hd]

theorem seedOne_new (st : ServerState) (t : String) (p : Rat)
    (h : truthyPrice (mapFind st.liveStockData t) = some p)
    (hd : st.ledger.any (fun r => r.ticker = t) = false) :
    seedOne st t = { st with ledger := st.ledger ++ [⟨t, t, 1, p⟩] } := by
  unfold seedOne; rw [h]; simp [hd]

theorem seedOne_preserves (st : ServerState) (t : String) :
    (seedOne st t).liveStockData = st.liveStockData ∧
    (seedOne st t).subscriptions = st.subscriptions ∧
    (seedOne st t).sent = st.sent := by
  unfold seedOne
  split
  · exact ⟨rfl, rfl, rfl⟩
  · split
    · exact ⟨rfl, rfl, rfl⟩
    · exact ⟨rfl, rfl, rfl⟩

theorem foldl_seedOne_preserves (l : List String) (st : ServerState) :
    (l.foldl seedOne st).liveStockData = st.liveStockData ∧
    (l.foldl seedOne st).subscriptions = st.subscriptions ∧
    (l.foldl seedOne st).sent = st.sent := by
  induction l generalizing st with
  | nil => exact ⟨rfl, rfl, rfl⟩
  | cons h rest ih =>
    rw [List.foldl_cons]
    obtain ⟨e1, e2, e3⟩ := ih (seedOne st h)
    obtain ⟨f1, f2, f3⟩ := seedOne_preserves st h
    exact ⟨e1.trans f1, e2.trans f2, e3.trans f3⟩

theorem seedRowsSpec_cons_none (ledger : List Stock) (live : List (String × Rat))
    (t : String) (rest : List String)
    (h : truthyPrice (mapFind live t) = none) :
    seedRowsSpec ledger live (t :: rest) = seedRowsSpec ledger live rest := by
  conv_lhs => unfold seedRowsSpec
  rw [h]

theorem seedRowsSpec_cons_dup (ledger : List Stock) (live : List (String × Rat))
    (t : String) (rest : List String) (p : Rat)
    (h : truthyPrice (mapFind live t) = some p)
    (hd : ledger.any (fun r => r.ticker = t) = true) :
    seedRowsSpec ledger live (t :: rest) = seedRowsSpec ledger live rest := by
  conv_lhs => unfold seedRowsSpec
  rw [h, hd]
  simp

theorem seedRowsSpec_cons_new (ledger : List Stock) (live : List (String × Rat))
    (t : String) (rest : List String) (p : Rat)
    (h : truthyPrice (mapFind live t) = some p)
    (hd : ledger.any (fun r => r.ticker = t) = false) :
    seedRowsSpec ledger live (t :: rest)
      = ⟨t, t, 1, p⟩ :: seedRowsSpec ledger live rest := by
  conv_lhs => unfold seedRowsSpec
  rw [h, hd]
  simp

theorem seedRowsSpec_append_row (ledger : List Stock) (live : List (String × Rat))
    (h : String) (p : Rat) (l : List String) (hni : h ∉ l) :
    seedRowsSpec (ledger ++ [⟨h, h, 1, p⟩]) live l = seedRowsSpec ledger live l := by
  induction l with
  | nil => rfl
  | cons u rest ih =>
    have hu : h ≠ u := fun e => hni (e ▸ List.mem_cons_self u rest)
    have hrest : h ∉ rest := fun e => hni (List.mem_cons_of_mem u e)
    have hany : (ledger ++ [(⟨h, h, 1, p⟩ : Stock)]).any (fun r => r.ticker = u)
        = ledger.any (fun r => r.ticker = u) := by
      simp [List.any_append, hu]
    unfold seedRowsSpec
    rw [hany]
    cases htr : truthyPrice (mapFind live u) with
    | none => exact ih hrest
    | some q =>
      cases hd : ledger.any (fun r => r.ticker = u) with
      | true => simp [hd, ih hrest]
      | false => simp [hd, ih hrest]

theorem foldl_seedOne_ledger (l : List String) (hl : l.Nodup) (st : ServerState) :
    (l.foldl seedOne st).ledger
      = st.ledger ++ seedRowsSpec st.ledger st.liveStockData l := by
  induction l generalizing st with
  | nil => simp [seedRowsSpec]
  | cons h rest ih =>
    rcases List.nodup_cons.mp hl with ⟨hni, hrest⟩
    rw [List.foldl_cons]
    cases htr : truthyPrice (mapFind st.liveStockData h) with
    | none =>
      rw [seedOne_none st h htr, ih hrest st,
        seedRowsSpec_cons_none st.ledger st.liveStockData h rest htr]
    | some p =>
      cases hd : st.ledger.any (fun r => r.ticker = h) with
      | true =>
        rw [seedOne_dup st h p htr hd, ih hrest st,
          seedRowsSpec_cons_dup st.ledger st.liveStockData h rest p htr hd]
      | false =>
        rw [seedOne_new st h p htr hd, ih hrest,
          seedRowsSpec_cons_new st.ledger st.liveStockData h rest p htr hd]
        show (st.ledger ++ [(⟨h, h, 1, p⟩ : Stock)])
            ++ seedRowsSpec (st.ledger ++ [(⟨h, h, 1, p⟩ : Stock)]) st.liveStockData rest = _
        rw [seedRowsSpec_append_row st.ledger st.liveStockData h p rest hni,
          List.append_assoc]
        rfl

/-! ## Claim theorems -/

/-- C1 (code bug): a client subscribes to "X" (its request carries response
object 1; the 0→1 transition correctly sends one upstream subscribe) and
then unsubscribes (fresh response object 2).  The subscriber count for "X"
has transitioned 1→0, so the claim requires exactly one upstream
unsubscribe; but the handler deletes the unsubscribe request's own
response object — which was never registered — so the set keeps the stale
object 1, never becomes empty, and no upstream unsubscribe frame is ever
sent. -/
theorem c1_unsubscribe_never_sent :
    (subscribeStock c1State (some "X") 1).2.sent = [(0, UpMsg.subscribe "X")] ∧
    (subscribeStock c1State (some "X") 1).2.subscriptions = [("X", [1])] ∧
    (unsubscribeStock (subscribeStock c1State (some "X") 1).2 (some "X") 2).1
      = Resp.ok 200 (OkBody.unsubscribed "X") ∧
    c1AfterUnsubscribe.sent = [(0, UpMsg.subscribe "X")] ∧
    c1AfterUnsubscribe.subscriptions = [("X", [1])] := by decide

/-- C2 (code bug): a decoded trade tick for "BINANCE:BTCUSDT" at price
65000 is handled while downstream channel 1 is registered for that
symbol.  The Live Price Cache is updated as claimed, but no update
message is delivered to the registered subscriber: the message handler
in `server.js` only writes the cache and never broadcasts. -/
theorem c2_tick_updates_cache_but_no_broadcast :
    mapFind c2AfterTick.liveStockData "BINANCE:BTCUSDT" = some 65000 ∧
    c2AfterTick.subscriptions = [("BINANCE:BTCUSDT", [1])] ∧
    c2AfterTick.clientSent = [] := by decide

/-- C3 (code bug): with "BINANCE:BTCUSDT" subscribed at the moment the
upstream connection drops, the close handler does schedule a reconnect
after the fixed 5000 ms delay (that half of the claim holds), and the
timer does bind a fresh socket; but the replacement socket has no event
handlers, so when the new connection opens not a single subscribe frame
is re-sent — the traffic after the drop is empty, not one subscribe per
symbol of the Subscribed-Symbol Set. -/
theorem c3_reconnect_no_resubscription :
    c3AtDrop.subscriptions = [("BINANCE:BTCUSDT", [1])] ∧
    reconnectDelayMs = 5000 ∧
    (onClose c3AtDrop).pendingReconnects = [reconnectDelayMs] ∧
    c3AfterReconnect.socketGen = 1 ∧
    c3AfterReconnect.sent = c3AtDrop.sent := by decide

/-- C4 (confirmed): for every sequence of trade ticks delivered for a
single symbol on the connected socket, the Live Price Cache entry for
that symbol after processing the whole sequence is the price of the last
tick — each `liveStockData.set` overwrites unconditionally. -/
theorem c4_last_write_wins (st : ServerState) (hg : st.socketGen = 0) (sym : String)
    (ps : List Rat) (p : Rat) :
    mapFind (processFrames st
        ((ps ++ [p]).map (fun q => some ⟨"trade", some [(sym, q)]⟩))).liveStockData sym
      = some p := by
  rw [List.map_append]
  simp only [processFrames, List.foldl_append, List.map_cons, List.map_nil,
    List.foldl_cons, List.foldl_nil]
  have hg' : (processFrames st
      (ps.map (fun q => some ⟨"trade", some [(sym, q)]⟩))).socketGen = 0 := by
    rw [processFrames_socketGen]; exact hg
  rw [show (List.foldl onMessage st (ps.map (fun q => some ⟨"trade", some [(sym, q)]⟩)))
      = processFrames st (ps.map (fun q => some ⟨"trade", some [(sym, q)]⟩)) from rfl]
  rw [onMessage_trade_single _ hg']
  exact mapFind_mapSet_self _ _ _

/-- C4 witness: ticks 1, 2, 3 for "BINANCE:BTCUSDT" leave 3 in the cache. -/
theorem c4_last_write_wins_witness :
    mapFind (processFrames (freshState [])
        (([(1 : Rat), 2] ++ [3]).map
          (fun q => some ⟨"trade", some [("BINANCE:BTCUSDT", q)]⟩))).liveStockData
      "BINANCE:BTCUSDT" = some 3 :=
  c4_last_write_wins (freshState []) rfl "BINANCE:BTCUSDT" [1, 2] 3

/-- C5 (confirmed): a sell request for an existing instrument whose
(non-negative) held quantity is smaller than the requested quantity is
answered with the 400 insufficient-quantity error and the whole server
state — ledger included — is returned unchanged. -/
theorem c5_insufficient_sell_rejected (st : ServerState) (t : String) (n : Int)
    (s : Stock) (h0 : t ≠ "") (h1 : findStock st.ledger t = some s)
    (h2 : 0 ≤ s.quantity) (h3 : s.quantity < n) :
    sellStock st (some t) (some n) = (Resp.err 400 ErrKind.insufficientQuantity, st) := by
  have hn : (0 : Int) < n := lt_of_le_of_lt h2 h3
  simp [sellStock, strFalsy, intFalsy, h0, h1, h3, hn.ne', not_le.mpr hn]

/-- C5 witness: the spec scenario — held quantity 3, requested quantity 5. -/
theorem c5_insufficient_sell_rejected_witness :
    sellStock c5State (some "ACME") (some 5)
      = (Resp.err 400 ErrKind.insufficientQuantity, c5State) :=
  c5_insufficient_sell_rejected c5State "ACME" 5 ⟨"ACME", "Acme Corp", 3, 10⟩
    (by decide) rfl (by decide) (by decide)

/-- C6 counterexample: instrument "X" (quantity 2) is not subscribed
upstream; a successful buy of 3 shares goes through, yet no upstream
subscribe frame is sent and the subscription map stays empty — refuting
the claim's "an upstream subscription for that symbol is ensured". -/
theorem c6_buy_does_not_subscribe :
    mapHas c6State.subscriptions "X" = false ∧
    (buyStock c6State (some "X") (some 3)).1
      = Resp.ok 200 (OkBody.bought ⟨"X", "X", 5, 1⟩) ∧
    (buyStock c6State (some "X") (some 3)).2.sent = [] ∧
    (buyStock c6State (some "X") (some 3)).2.subscriptions = [] := by decide

/-- C6 (corrected): a successful buy on an existing instrument increments
that instrument's stored quantity by exactly the requested amount, and
leaves the subscription map, the upstream traffic and the price cache
unchanged — no upstream subscription is ensured. -/
theorem c6_buy_increments_quantity_only (st : ServerState) (t : String) (n : Int)
    (s : Stock) (h0 : t ≠ "") (h1 : findStock st.ledger t = some s) (h2 : 0 < n) :
    (buyStock st (some t) (some n)).1
        = Resp.ok 200 (OkBody.bought { s with quantity := s.quantity + n }) ∧
    findStock (buyStock st (some t) (some n)).2.ledger t
        = some { s with quantity := s.quantity + n } ∧
    (buyStock st (some t) (some n)).2.subscriptions = st.subscriptions ∧
    (buyStock st (some t) (some n)).2.sent = st.sent ∧
    (buyStock st (some t) (some n)).2.liveStockData = st.liveStockData := by
  have hb : buyStock st (some t) (some n)
      = (Resp.ok 200 (OkBody.bought { s with quantity := s.quantity + n }),
         { st with ledger := updateStock st.ledger t { s with quantity := s.quantity + n } }) := by
    simp [buyStock, strFalsy, intFalsy, h0, h1, h2.ne', not_le.mpr h2]
  rw [hb]
  refine ⟨rfl, ?_, rfl, rfl, rfl⟩
  exact findStock_updateStock st.ledger t s _ h1 (findStock_ticker_eq st.ledger t s h1)

/-- C6 witness: buying 3 shares of "X" (held quantity 2) stores quantity 5
and touches nothing else. -/
theorem c6_buy_increments_quantity_only_witness :
    (buyStock c6State (some "X") (some 3)).1
        = Resp.ok 200 (OkBody.bought ⟨"X", "X", 5, 1⟩) ∧
    findStock (buyStock c6State (some "X") (some 3)).2.ledger "X"
        = some ⟨"X", "X", 5, 1⟩ ∧
    (buyStock c6State (some "X") (some 3)).2.subscriptions = c6State.subscriptions ∧
    (buyStock c6State (some "X") (some 3)).2.sent = c6State.sent ∧
    (buyStock c6State (some "X") (some 3)).2.liveStockData = c6State.liveStockData :=
  c6_buy_increments_quantity_only c6State "X" 3 ⟨"X", "X", 2, 1⟩
    (by decide) rfl (by decide)

/-- C7 (confirmed): a well-formed subscribe, sell or buy request naming a
ticker that is not in the ledger is answered 404 not-found and the whole
server state — ledger, cache, subscription map and upstream traffic — is
returned unchanged. -/
theorem c7_not_found_no_mutation (st : ServerState) (t : String) (n : Int) (rid : Nat)
    (h0 : t ≠ "") (h1 : findStock st.ledger t = none) (h2 : 0 < n) :
    subscribeStock st (some t) rid = (Resp.err 404 ErrKind.notFound, st) ∧
    sellStock st (some t) (some n) = (Resp.err 404 ErrKind.notFound, st) ∧
    buyStock st (some t) (some n) = (Resp.err 404 ErrKind.notFound, st) := by
  refine ⟨?_, ?_, ?_⟩ <;>
    simp [subscribeStock, sellStock, buyStock, strFalsy, intFalsy, h0, h1,
      h2.ne', not_le.mpr h2]

/-- C7 witness: ticker "NOPE" on an empty ledger. -/
theorem c7_not_found_no_mutation_witness :
    subscribeStock (freshState []) (some "NOPE") 0
      = (Resp.err 404 ErrKind.notFound, freshState []) ∧
    sellStock (freshState []) (some "NOPE") (some 1)
      = (Resp.err 404 ErrKind.notFound, freshState []) ∧
    buyStock (freshState []) (some "NOPE") (some 1)
      = (Resp.err 404 ErrKind.notFound, freshState []) :=
  c7_not_found_no_mutation (freshState []) "NOPE" 1 0 (by decide) rfl (by decide)

/-- C8 counterexample: the ledger holds 4 instruments (none of them
default symbols) and the cache holds price 1 for "BINANCE:BTCUSDT",
price 0 for "BINANCE:SOLUSDT" and price 0 for "AAPL".  Per the claim,
the default symbols with a cached price should be seeded and "AAPL"
should get its cached price attached; in fact the seeding loop only
attempts `initialStocks.slice(4, 5)` (so "BINANCE:BTCUSDT" is never
attempted despite its cached price), skips "BINANCE:SOLUSDT" because its
cached price 0 is falsy, and the response attaches `null` for "AAPL"
although a price (0) is cached. -/
theorem c8_seeding_counterexample :
    c8State.ledger.length < 5 ∧
    mapFind c8State.liveStockData "BINANCE:BTCUSDT" = some 1 ∧
    mapFind c8State.liveStockData "BINANCE:SOLUSDT" = some 0 ∧
    mapFind c8State.liveStockData "AAPL" = some 0 ∧
    (getStocks c8State).2.ledger.map Stock.ticker
      = ["AAPL", "MSFT", "GOOG", "TSLA"] ∧
    (getStocks c8State).1.map (fun x => (x.1.ticker, x.2)) =
      [("AAPL", none), ("MSFT", none), ("GOOG", none), ("TSLA", none)] := by decide

/-- C8 (corrected): when the ledger holds fewer than 5 instruments, the
list-instruments operation appends exactly the rows described by
`seedRowsSpec` over the original ledger and cache — the default symbols
from position (ledger size) onward of the fixed 5-symbol list, each
seeded with quantity 1 and its cached price as cost basis, skipping any
whose cached price is absent or zero and any ticker already present —
leaving cache, subscription map and upstream traffic unchanged, and
answers with every ledger row paired with its cached live price, where
an absent or zero cached price is reported as null. -/
theorem c8_lazy_seed_amended (st : ServerState) (h5 : st.ledger.length < 5) :
    (getStocks st).2.ledger
        = st.ledger ++ seedRowsSpec st.ledger st.liveStockData
            (initialStocks.drop st.ledger.length) ∧
    (getStocks st).2.liveStockData = st.liveStockData ∧
    (getStocks st).2.subscriptions = st.subscriptions ∧
    (getStocks st).2.sent = st.sent ∧
    (getStocks st).1 = (getStocks st).2.ledger.map
        (fun s => (s, truthyPrice (mapFind st.liveStockData s.ticker))) := by
  have hnodup : (initialStocks.drop st.ledger.length).Nodup :=
    List.Nodup.sublist (List.drop_sublist _ _) (by decide)
  obtain ⟨e1, e2, e3⟩ := foldl_seedOne_preserves (initialStocks.drop st.ledger.length) st
  simp only [getStocks, if_pos h5]
  refine ⟨foldl_seedOne_ledger _ hnodup st, e1, e2, e3, ?_⟩
  rw [e1]

/-- C8 witness: empty ledger, cached price 7 for the first default symbol. -/
theorem c8_lazy_seed_amended_witness :
    (getStocks c8WitnessState).2.ledger
        = c8WitnessState.ledger ++ seedRowsSpec c8WitnessState.ledger
            c8WitnessState.liveStockData
            (initialStocks.drop c8WitnessState.ledger.length) ∧
    (getStocks c8WitnessState).2.liveStockData = c8WitnessState.liveStockData ∧
    (getStocks c8WitnessState).2.subscriptions = c8WitnessState.subscriptions ∧
    (getStocks c8WitnessState).2.sent = c8WitnessState.sent ∧
    (getStocks c8WitnessState).1 = (getStocks c8WitnessState).2.ledger.map
        (fun s => (s, truthyPrice (mapFind c8WitnessState.liveStockData s.ticker))) :=
  c8_lazy_seed_amended c8WitnessState (by decide)

/-- C9 (confirmed): a malformed (undecodable) upstream frame leaves the
whole state — cache, subscriptions, traffic, socket generation, pending
reconnect timers — unchanged (the handler catches the decode error, so
nothing escapes and no reconnect is triggered), and deleting it from any
frame sequence does not change the result of processing, so subsequent
well-formed frames are processed exactly as they would have been. -/
theorem c9_malformed_frame_swallowed (st : ServerState)
    (pre post : List (Option UpFrame)) :
    onMessage st none = st ∧
      processFrames st (pre ++ none :: post) = processFrames st (pre ++ post) := by
  refine ⟨onMessage_none st, ?_⟩
  simp only [processFrames, List.foldl_append, List.foldl_cons]
  rw [onMessage_none]

/-- C10 (confirmed): an add-instrument request in which any of ticker,
name, quantity or buyPrice is absent or falsy — including a present
quantity 0 or buyPrice 0 — is answered with the 400 missing-required-
fields error and the whole server state is returned unchanged (no record
created). -/
theorem c10_missing_fields_rejected (st : ServerState) (ticker nm : Option String)
    (q : Option Int) (bp : Option Rat)
    (h : strFalsy ticker = true ∨ strFalsy nm = true ∨
      intFalsy q = true ∨ ratFalsy bp = true) :
    addStock st ticker nm q bp = (Resp.err 400 ErrKind.missingFields, st) := by
  unfold addStock
  rcases h with h | h | h | h <;> simp [h]

/-- C10 witness: a present quantity of 0 is rejected although every other
field is set. -/
theorem c10_missing_fields_rejected_witness :
    addStock (freshState []) (some "AAPL") (some "Apple") (some 0) (some 1)
      = (Resp.err 400 ErrKind.missingFields, freshState []) :=
  c10_missing_fields_rejected (freshState []) (some "AAPL") (some "Apple")
    (some 0) (some 1) (Or.inr (Or.inr (Or.inl (by decide))))
